import Mathlib

/-!
Verification of the query, filter, pagination and analytics engine of the
bug-tracker server (routes/bugs.ts and the Bug model).  The definitions below
are shallow embeddings of the route handlers: request query parameters are
optional strings, the persistence layer is a list of records, and the MongoDB
filter object built by the handlers is an explicit structure interpreted by
a matching predicate.
-/

/-- A stored Bug record.  Timestamps are integer epoch milliseconds; the
assignee reference is optional (absent models a null assignedTo in the store). -/
structure BugRec where
  id : String
  title : String
  description : String
  status : String
  priority : String
  type : String
  assignedTo : Option String
  reporter : String
  resolvedAt : Option Int
  createdAt : Int
  updatedAt : Int
deriving DecidableEq, Repr

/-- Raw request query parameters, as the Express handlers receive them:
each key is either absent or a string. -/
structure QueryParams where
  page : Option String := none
  limit : Option String := none
  status : Option String := none
  priority : Option String := none
  type : Option String := none
  assignedTo : Option String := none
  reporter : Option String := none
  unassigned : Option String := none
  search : Option String := none
deriving DecidableEq, Repr

/-- JavaScript truthiness of an optional query-string value, as tested by
the guards in the filter builders: an absent key and the empty string are
falsy, every other string is truthy. -/
def qTruthy : Option String → Bool
  | none => false
  | some s => s != ""

/-- The MongoDB filter object built by the handlers.  Each field mirrors one
key the code may set: an outer none means the key is absent (no constraint).
For assignedTo, some none models the explicit null written by the unassigned
branch, and some (some u) models an assignee id.  The search field records the
term placed in both regex clauses of the or-clause on title and description. -/
structure MongoFilter where
  status : Option String := none
  priority : Option String := none
  type : Option String := none
  assignedTo : Option (Option String) := none
  reporter : Option String := none
  search : Option String := none
deriving DecidableEq, Repr

/-- Filter builder of GET /api/bugs (routes/bugs.ts lines 42-62), transcribed
guard by guard in source order: status, priority, type, assignedTo, reporter,
then the unassigned branch (which overwrites assignedTo with null when the
parameter is exactly the string true), then the search clause. -/
def listBuildFilter (q : QueryParams) : MongoFilter :=
  let f : MongoFilter := {}
  let f := if qTruthy q.status then { f with status := q.status } else f
  let f := if qTruthy q.priority then { f with priority := q.priority } else f
  let f := if qTruthy q.type then { f with type := q.type } else f
  let f := if qTruthy q.assignedTo then { f with assignedTo := some q.assignedTo } else f
  let f := if qTruthy q.reporter then { f with reporter := q.reporter } else f
  let f := if q.unassigned == some "true" then { f with assignedTo := some none } else f
  let f := if qTruthy q.search then { f with search := q.search } else f
  f

/-- Filter builder of GET /api/bugs/export (routes/bugs.ts lines 110-129),
transcribed separately from the listing builder so that their agreement is a
theorem, not an assumption.  The source repeats the same guards in the same
order. -/
def exportBuildFilter (q : QueryParams) : MongoFilter :=
  let f : MongoFilter := {}
  let f := if qTruthy q.status then { f with status := q.status } else f
  let f := if qTruthy q.priority then { f with priority := q.priority } else f
  let f := if qTruthy q.type then { f with type := q.type } else f
  let f := if qTruthy q.assignedTo then { f with assignedTo := some q.assignedTo } else f
  let f := if qTruthy q.reporter then { f with reporter := q.reporter } else f
  let f := if q.unassigned == some "true" then { f with assignedTo := some none } else f
  let f := if qTruthy q.search then { f with search := q.search } else f
  f

/-- One anchored step of the store's case-insensitive regular-expression
matching, on the fragment of patterns consisting of literal characters and the
dot metacharacter (which matches any single character); every other character
matches itself up to ASCII case, which is the documented behaviour of the
store's regex operator with the i option.  Returns true when the pattern
matches a prefix of the input. -/
def regexAccepts : List Char → List Char → Bool
  | [], _ => true
  | _ :: _, [] => false
  | p :: ps, c :: cs => (p == '.' || p.toLower == c.toLower) && regexAccepts ps cs

/-- Unanchored search of the store's regex operator: the pattern matches the
input when it matches at some position. -/
def regexFound (p : List Char) (s : List Char) : Bool :=
  match s with
  | [] => regexAccepts p []
  | _ :: cs => regexAccepts p s || regexFound p cs

/-- Interpretation of the or-clause the handlers build for a search term: the
term, read as a case-insensitive regex, is found in the title or in the
description (routes/bugs.ts lines 58-61 and 125-128). -/
def matchesSearch (term : String) (b : BugRec) : Bool :=
  regexFound term.toList b.title.toList || regexFound term.toList b.description.toList

/-- Store semantics of a filter object: conjunction of the constraints of the
present keys.  A null assignedTo constraint matches records whose assignee is
absent; an id constraint matches that exact assignee. -/
def matchesFilter (f : MongoFilter) (b : BugRec) : Bool :=
  (match f.status with | none => true | some s => b.status == s) &&
  (match f.priority with | none => true | some s => b.priority == s) &&
  (match f.type with | none => true | some s => b.type == s) &&
  (match f.assignedTo with
   | none => true
   | some none => b.assignedTo == none
   | some (some u) => b.assignedTo == some u) &&
  (match f.reporter with | none => true | some r => b.reporter == r) &&
  (match f.search with | none => true | some term => matchesSearch term b)

/-- Store count operation: Bug.countDocuments(filter). -/
def countDocuments (f : MongoFilter) (store : List BugRec) : Nat :=
  (store.filter (matchesFilter f)).length

/-- Store find with the fixed sort createdAt descending used by both the
listing and the export reads. -/
def findSorted (f : MongoFilter) (store : List BugRec) : List BugRec :=
  List.insertionSort (fun a b => b.createdAt ≤ a.createdAt) (store.filter (matchesFilter f))

/-- JavaScript parseInt(x) with a default d applied through the falsy-or
(parseInt(x) or d).  The model covers decimal digit strings, the only inputs
that pass the route's validation; any other input behaves as NaN and falls
back to the default, and a parsed 0 is falsy and also falls back. -/
def parsePosInt (v : Option String) (dflt : Nat) : Nat :=
  match v with
  | none => dflt
  | some s =>
    match s.toNat? with
    | none => dflt
    | some 0 => dflt
    | some n => n

/-- Pagination envelope of the listing response. -/
structure Pagination where
  currentPage : Nat
  totalPages : Nat
  totalCount : Nat
  hasNext : Bool
  hasPrev : Bool
deriving DecidableEq, Repr

/-- Pagination envelope assembly (routes/bugs.ts lines 77-89): totalPages is
the ceiling of totalCount over limit (in natural division, (n + s - 1) / s,
which agrees with Math.ceil on these integer inputs for limit at least 1),
hasNext compares the requested page with totalPages, hasPrev with 1, and
currentPage echoes the request. -/
def mkPagination (page limit totalCount : Nat) : Pagination :=
  let totalPages := (totalCount + limit - 1) / limit
  { currentPage := page
    totalPages := totalPages
    totalCount := totalCount
    hasNext := page < totalPages
    hasPrev := 1 < page }

/-- Result of the listing operation: the windowed page of records plus the
pagination envelope. -/
structure ListResult where
  bugs : List BugRec
  pagination : Pagination
deriving DecidableEq, Repr

/-- The listing operation past validation (routes/bugs.ts lines 37-91):
parse page and limit with their defaults, build the filter, read the sorted
window and the total count, and assemble the envelope. -/
def listBugs (q : QueryParams) (store : List BugRec) : ListResult :=
  let page := parsePosInt q.page 1
  let limit := parsePosInt q.limit 10
  let skip := (page - 1) * limit
  let filter := listBuildFilter q
  let bugs := ((findSorted filter store).drop skip).take limit
  let totalCount := countDocuments filter store
  { bugs := bugs, pagination := mkPagination page limit totalCount }

/-- List of admissible status values (routes/bugs.ts line 20). -/
def statusValues : List String := ["open", "in-progress", "resolved", "closed", "reopened"]

/-- List of admissible priority values (routes/bugs.ts line 21). -/
def priorityValues : List String := ["low", "medium", "high", "critical"]

/-- List of admissible type values (routes/bugs.ts line 22). -/
def typeValues : List String := ["bug", "feature", "improvement", "task"]

/-- Validator isInt with a lower bound: a decimal integer string of value at
least lo. -/
def isIntMin (lo : Nat) (s : String) : Bool :=
  match s.toNat? with
  | none => false
  | some n => lo ≤ n

/-- Validator isInt with both bounds. -/
def isIntInRange (lo hi : Nat) (s : String) : Bool :=
  match s.toNat? with
  | none => false
  | some n => lo ≤ n && n ≤ hi

/-- Validator isMongoId: a 24-character hexadecimal identifier. -/
def isMongoId (s : String) : Bool :=
  s.length == 24 &&
    s.toList.all (fun c => c.isDigit || ('a' ≤ c && c ≤ 'f') || ('A' ≤ c && c ≤ 'F'))

/-- An optional validator: absent passes, present must satisfy the check. -/
def optValid (v : Option String) (check : String → Bool) : Bool :=
  match v with
  | none => true
  | some s => check s

/-- Validator chain of GET /api/bugs (routes/bugs.ts lines 17-25): page,
limit, the three enumerations, and the two identifier fields; search is
accepted unconditionally (isString always holds for a query string). -/
def validateListQuery (q : QueryParams) : Bool :=
  optValid q.page (isIntMin 1) &&
  optValid q.limit (isIntInRange 1 100) &&
  optValid q.status (fun s => statusValues.contains s) &&
  optValid q.priority (fun s => priorityValues.contains s) &&
  optValid q.type (fun s => typeValues.contains s) &&
  optValid q.assignedTo isMongoId &&
  optValid q.reporter isMongoId

/-- Client-input rejection produced by a failed validator chain. -/
inductive ApiError where
  | invalidQuery : ApiError
deriving DecidableEq, Repr

/-- The full GET /api/bugs handler: reject when the validator chain reports
errors (routes/bugs.ts lines 28-35), otherwise run the listing operation. -/
def listBugsHandler (q : QueryParams) (store : List BugRec) : Except ApiError ListResult :=
  if validateListQuery q then .ok (listBugs q store) else .error .invalidQuery

/-- Field escaping of the export route (routes/bugs.ts lines 148-153, the
replace of each double quote by two): every double quote in the character
list is doubled, all other characters pass through. -/
def dupQuotes : List Char → List Char
  | [] => []
  | c :: cs => if c == '\x22' then '\x22' :: '\x22' :: dupQuotes cs else c :: dupQuotes cs

/-- Guard of escapeCSV: the field contains a comma, a double quote or a
newline (routes/bugs.ts line 149). -/
def hasCSVSpecial (field : String) : Bool :=
  field.toList.contains ',' || field.toList.contains '\x22' || field.toList.contains '\n'

/-- escapeCSV of the export route (routes/bugs.ts lines 148-153): a field
containing a comma, double quote or newline is wrapped in double quotes with
internal double quotes doubled; any other field is returned unchanged. -/
def escapeCSV (field : String) : String :=
  if hasCSVSpecial field then "\x22" ++ String.mk (dupQuotes field.toList) ++ "\x22"
  else field

/-- Display-name resolution after populate: a present reference found in the
user table renders as its stored display name, anything else falls back to
the given literal (Unassigned or Unknown in the export route). -/
def displayName (users : List (String × String)) (ref : Option String) (fallback : String) : String :=
  match ref with
  | none => fallback
  | some id =>
    match users.lookup id with
    | some nm => nm
    | none => fallback

/-- Rendering of a stored timestamp in the export row.  The ISO-8601 textual
form is abstracted to a decimal rendering of the epoch value; no claim
depends on the concrete text, only on row counts and field escaping. -/
def isoTimestamp (t : Int) : String := toString t

/-- One CSV data row of the export route (routes/bugs.ts lines 155-166):
the ten columns joined by commas, with title, description and the two display
names escaped.  The source applies description-or-empty before escaping; for
string-valued descriptions that is the identity, so the field is escaped
directly. -/
def csvRow (users : List (String × String)) (b : BugRec) : String :=
  String.intercalate ","
    [ b.id
    , escapeCSV b.title
    , escapeCSV b.description
    , b.status
    , b.priority
    , b.type
    , escapeCSV (displayName users b.assignedTo "Unassigned")
    , escapeCSV (displayName users b.reporter "Unknown")
    , isoTimestamp b.createdAt
    , isoTimestamp b.updatedAt ]

/-- Header row of the export (routes/bugs.ts line 138), trailing newline
included. -/
def csvHeader : String :=
  "ID,Title,Description,Status,Priority,Type,Assigned To,Reporter,Created At,Updated At\n"

/-- Unwindowed filtered read of the export route (routes/bugs.ts line 132):
every matching record, in the same createdAt-descending order as the
listing read. -/
def exportFind (q : QueryParams) (store : List BugRec) : List BugRec :=
  findSorted (exportBuildFilter q) store

/-- Body assembled by the export route (routes/bugs.ts lines 138-169):
header plus the newline-joined data rows of the unwindowed filtered read. -/
def exportCSV (q : QueryParams) (store : List BugRec) (users : List (String × String)) : String :=
  csvHeader ++ String.intercalate "\n" ((exportFind q store).map (csvRow users))

/-- The full GET /api/bugs/export handler (routes/bugs.ts lines 105-175):
no validator chain runs; the filter is built from the raw query values and a
CSV body is always produced. -/
def exportHandler (q : QueryParams) (store : List BugRec)
    (users : List (String × String)) : Except ApiError String :=
  .ok (exportCSV q store users)

/-- Group-by-value count aggregation with count sum 1, as run by the
analytics route on status and on priority (routes/bugs.ts lines 211-228):
one group per distinct value present in the store, carrying the number of
records with that value.  The store's group order is unspecified; the order
of first appearance is used here. -/
def groupCounts (f : BugRec → String) (store : List BugRec) : List (String × Nat) :=
  ((store.map f).dedup).map (fun v => (v, (store.filter (fun b => f b == v)).length))

/-- Status distribution of the analytics route. -/
def statusStats (store : List BugRec) : List (String × Nat) :=
  groupCounts (fun b => b.status) store

/-- Priority distribution of the analytics route. -/
def priorityStats (store : List BugRec) : List (String × Nat) :=
  groupCounts (fun b => b.priority) store

/-- Unfiltered total of the analytics route, Bug.countDocuments() with the
empty filter object. -/
def totalBugs (store : List BugRec) : Nat :=
  countDocuments {} store

/-- Milliseconds per day of the JavaScript Date arithmetic. -/
def msPerDay : Int := 86400000

/-- Recent-window cutoff of the analytics route (routes/bugs.ts lines
231-232): setDate(getDate() - 7) moves the captured instant back exactly
seven days. -/
def last7DaysCutoff (now : Int) : Int := now - 7 * msPerDay

/-- Monthly-trend cutoff of the analytics route (routes/bugs.ts lines
270-271): setMonth(getMonth() - 6) moves the captured instant back six
calendar months.  Calendar month lengths are abstracted to a fixed thirty
days here; the abstraction leaves untouched the only property at stake,
namely which clock read the cutoff is derived from. -/
def sixMonthsCutoff (now : Int) : Int := now - 6 * 30 * msPerDay

/-- The two time windows computed by one invocation of the analytics route,
as a function of its clock: the handler calls new Date() twice, first for
the recent window (line 231) and again for the monthly trend (line 270), so
the recent cutoff is derived from clock read 0 and the trend cutoff from
clock read 1. -/
def analyticsWindows (clock : Nat → Int) : Int × Int :=
  (last7DaysCutoff (clock 0), sixMonthsCutoff (clock 1))

/-- Records feeding the monthly-trend aggregation: created at or after the
six-month cutoff (routes/bugs.ts lines 273-278). -/
def monthlyTrendSource (clock : Nat → Int) (store : List BugRec) : List BugRec :=
  store.filter (fun b => (analyticsWindows clock).2 ≤ b.createdAt)

/-- Count of records in the recent window (routes/bugs.ts lines 234-236). -/
def recentBugsCount (clock : Nat → Int) (store : List BugRec) : Nat :=
  (store.filter (fun b => (analyticsWindows clock).1 ≤ b.createdAt)).length

/-- Update body accepted by PUT /api/bugs/:id, restricted to the fields that
bear on the resolvedAt invariant; each field is absent or supplies a new
value, and assignedTo may explicitly supply null (modelled some none). -/
structure UpdateBody where
  title : Option String := none
  description : Option String := none
  priority : Option String := none
  status : Option String := none
  type : Option String := none
  assignedTo : Option (Option String) := none
deriving DecidableEq, Repr

/-- The pre-save middleware of the Bug model (the resolvedAt hook of
bugSchema): when the status path is modified, a closed status with no
resolved timestamp stamps the current time, and any non-closed status clears
the timestamp. -/
def preSaveResolvedAt (statusModified : Bool) (now : Int) (b : BugRec) : BugRec :=
  if statusModified then
    if b.status == "closed" && b.resolvedAt == none then { b with resolvedAt := some now }
    else if !(b.status == "closed") then { b with resolvedAt := none }
    else b
  else b

/-- Document save: mongoose runs the pre-save middleware, then persists. -/
def saveBug (statusModified : Bool) (now : Int) (b : BugRec) : BugRec :=
  preSaveResolvedAt statusModified now b

/-- Store semantics of findByIdAndUpdate with the update body of the PUT
handler (routes/bugs.ts lines 514-518): the supplied fields overwrite the
stored document atomically.  By documented mongoose semantics, document save
middleware does not run on findByIdAndUpdate, so the resolvedAt hook is not
applied on this path. -/
def findByIdAndUpdate (u : UpdateBody) (b : BugRec) : BugRec :=
  { b with
    title := u.title.getD b.title
    description := u.description.getD b.description
    priority := u.priority.getD b.priority
    status := u.status.getD b.status
    type := u.type.getD b.type
    assignedTo := match u.assignedTo with | none => b.assignedTo | some a => a }

/-- The write performed by PUT /api/bugs/:id on a found, validated record:
a single findByIdAndUpdate (routes/bugs.ts lines 514-518). -/
def updateBugEndpoint (u : UpdateBody) (b : BugRec) : BugRec :=
  findByIdAndUpdate u b

/-- The record produced by POST /api/bugs (routes/bugs.ts lines 409-421):
a new document with status defaulted to open and a null resolvedAt, then
saved; on a new document every path counts as modified, so the hook runs. -/
def createBug (now : Int) (id title description priority ty : String)
    (assignedTo : Option String) (reporter : String) : BugRec :=
  saveBug true now
    { id := id
      title := title
      description := description
      status := "open"
      priority := priority
      type := ty
      assignedTo := assignedTo
      reporter := reporter
      resolvedAt := none
      createdAt := now
      updatedAt := now }

/-- The resolvedAt invariant stated by the model documentation: a resolved
timestamp is present only on a closed record. -/
def resolvedAtInvariant (b : BugRec) : Prop :=
  b.resolvedAt ≠ none → b.status = "closed"

attribute [ext] MongoFilter

/-- Status key of the listing filter: present exactly when the raw value is
truthy. -/
theorem listBuildFilter_status (q : QueryParams) :
    (listBuildFilter q).status = (if qTruthy q.status then q.status else none) := by
  simp [listBuildFilter, apply_ite MongoFilter.status]

/-- Priority key of the listing filter. -/
theorem listBuildFilter_priority (q : QueryParams) :
    (listBuildFilter q).priority = (if qTruthy q.priority then q.priority else none) := by
  simp [listBuildFilter, apply_ite MongoFilter.priority]

/-- Type key of the listing filter. -/
theorem listBuildFilter_type (q : QueryParams) :
    (listBuildFilter q).type = (if qTruthy q.type then q.type else none) := by
  simp [listBuildFilter, apply_ite MongoFilter.type]

/-- Reporter key of the listing filter. -/
theorem listBuildFilter_reporter (q : QueryParams) :
    (listBuildFilter q).reporter = (if qTruthy q.reporter then q.reporter else none) := by
  simp [listBuildFilter, apply_ite MongoFilter.reporter]

/-- Search key of the listing filter. -/
theorem listBuildFilter_search (q : QueryParams) :
    (listBuildFilter q).search = (if qTruthy q.search then q.search else none) := by
  simp [listBuildFilter, apply_ite MongoFilter.search]

/-- AssignedTo key of the listing filter: the unassigned branch overrides the
raw assignee id with the explicit null constraint. -/
theorem listBuildFilter_assignedTo (q : QueryParams) :
    (listBuildFilter q).assignedTo =
      (if q.unassigned == some "true" then some none
       else if qTruthy q.assignedTo then some q.assignedTo else none) := by
  simp only [listBuildFilter, apply_ite MongoFilter.assignedTo]
  split_ifs <;> rfl

/-- The export route builds the same filter object as the listing route:
the two transcriptions are definitionally identical. -/
theorem exportBuildFilter_eq_listBuildFilter (q : QueryParams) :
    exportBuildFilter q = listBuildFilter q := rfl

/-- With the unassigned parameter set to true, the filter carries the
explicit null assignee constraint. -/
theorem listBuildFilter_assignedTo_of_unassigned (q : QueryParams)
    (h : q.unassigned = some "true") :
    (listBuildFilter q).assignedTo = some none := by
  rw [listBuildFilter_assignedTo]
  simp [h]

/-- C1.  For every filter input in which unassigned is the string true, the
listing predicate discards the assignedTo constraint rather than combining
it: the built filter equals the one built with no assignedTo value, every
matching record has an absent assignee, and when no other constraint is
supplied the matching set is exactly the subset of the store with no
assignee. -/
theorem C1_unassigned_overrides_assignedTo (q : QueryParams) (store : List BugRec)
    (h : q.unassigned = some "true") :
    listBuildFilter q = listBuildFilter { q with assignedTo := none } ∧
    (∀ b ∈ store.filter (matchesFilter (listBuildFilter q)), b.assignedTo = none) ∧
    (∀ b ∈ (listBugs q store).bugs, b.assignedTo = none) ∧
    (q.status = none → q.priority = none → q.type = none → q.reporter = none →
      q.search = none →
      store.filter (matchesFilter (listBuildFilter q)) =
        store.filter (fun b => b.assignedTo == none)) := by
  have hA : (listBuildFilter q).assignedTo = some none :=
    listBuildFilter_assignedTo_of_unassigned q h
  have hmem : ∀ b ∈ store.filter (matchesFilter (listBuildFilter q)), b.assignedTo = none := by
    intro b hb
    rw [List.mem_filter] at hb
    have hm := hb.2
    rw [matchesFilter, hA] at hm
    simp only [Bool.and_eq_true] at hm
    have hbn : (b.assignedTo == none) = true := hm.1.1.2
    simpa using hbn
  refine ⟨?_, hmem, ?_, ?_⟩
  · ext
    · rw [listBuildFilter_status, listBuildFilter_status]
    · rw [listBuildFilter_priority, listBuildFilter_priority]
    · rw [listBuildFilter_type, listBuildFilter_type]
    · rw [hA, listBuildFilter_assignedTo]
      simp [h]
    · rw [listBuildFilter_reporter, listBuildFilter_reporter]
    · rw [listBuildFilter_search, listBuildFilter_search]
  · intro b hb
    apply hmem
    have hb2 := List.mem_of_mem_drop (List.mem_of_mem_take hb)
    rw [findSorted, List.mem_insertionSort] at hb2
    exact hb2
  · intro hs hp ht hr hse
    apply List.filter_congr
    intro b _
    have h1 : (listBuildFilter q).status = none := by
      rw [listBuildFilter_status, hs]; rfl
    have h2 : (listBuildFilter q).priority = none := by
      rw [listBuildFilter_priority, hp]; rfl
    have h3 : (listBuildFilter q).type = none := by
      rw [listBuildFilter_type, ht]; rfl
    have h4 : (listBuildFilter q).reporter = none := by
      rw [listBuildFilter_reporter, hr]; rfl
    have h5 : (listBuildFilter q).search = none := by
      rw [listBuildFilter_search, hse]; rfl
    rw [matchesFilter, hA, h1, h2, h3, h4, h5]
    simp

/-- Sample record with an assignee. -/
def bugA : BugRec :=
  { id := "1"
    title := "Crash on save"
    description := "The app crashes when saving"
    status := "open"
    priority := "high"
    type := "bug"
    assignedTo := some "64b0c0ffee0ddf00d5ec1a2b"
    reporter := "64b0c0ffee0ddf00d5ec1a2c"
    resolvedAt := none
    createdAt := 1000
    updatedAt := 1000 }

/-- Sample record without an assignee. -/
def bugB : BugRec :=
  { id := "2"
    title := "LOGIN page broken"
    description := "Nothing renders"
    status := "open"
    priority := "medium"
    type := "bug"
    assignedTo := none
    reporter := "64b0c0ffee0ddf00d5ec1a2c"
    resolvedAt := none
    createdAt := 2000
    updatedAt := 2000 }

/-- Query supplying both unassigned and an assignee id. -/
def qUnassigned : QueryParams :=
  { unassigned := some "true", assignedTo := some "64b0c0ffee0ddf00d5ec1a2b" }

/-- Witness for C1 at a concrete query carrying both unassigned and an
assignee id, over a two-record store. -/
theorem C1_unassigned_overrides_assignedTo_witness :
    qUnassigned.unassigned = some "true" ∧
    (listBuildFilter qUnassigned = listBuildFilter { qUnassigned with assignedTo := none } ∧
     (∀ b ∈ [bugA, bugB].filter (matchesFilter (listBuildFilter qUnassigned)),
        b.assignedTo = none) ∧
     (∀ b ∈ (listBugs qUnassigned [bugA, bugB]).bugs, b.assignedTo = none) ∧
     (qUnassigned.status = none → qUnassigned.priority = none → qUnassigned.type = none →
       qUnassigned.reporter = none → qUnassigned.search = none →
       [bugA, bugB].filter (matchesFilter (listBuildFilter qUnassigned)) =
         [bugA, bugB].filter (fun b => b.assignedTo == none))) :=
  ⟨rfl, C1_unassigned_overrides_assignedTo qUnassigned [bugA, bugB] rfl⟩

/-- C2 counterexample.  At total count 0, requested page 1, page size 10, the
envelope reports zero total pages, not the one page the claim asserts. -/
theorem C2_counterexample_totalPages_zero :
    (mkPagination 1 10 0).totalPages = 0 ∧ (mkPagination 1 10 0).totalPages ≠ 1 := by
  decide

/-- C2 amended.  For page size at least 1, totalPages is the exact ceiling of
the total count over the page size with no special case at zero (so a total
count of 0 yields 0 total pages, not 1); hasNext holds exactly when the
requested page is below totalPages, hasPrev exactly when it exceeds 1, and
currentPage echoes the request without clamping. -/
theorem C2_pagination_envelope (N p s : Nat) (hs : 1 ≤ s) :
    N ≤ (mkPagination p s N).totalPages * s ∧
    (mkPagination p s N).totalPages * s < N + s ∧
    ((mkPagination p s N).hasNext = true ↔ p < (mkPagination p s N).totalPages) ∧
    ((mkPagination p s N).hasPrev = true ↔ 1 < p) ∧
    (mkPagination p s N).currentPage = p ∧
    (mkPagination p s N).totalCount = N := by
  have hdm : (N + s - 1) / s * s + (N + s - 1) % s = N + s - 1 := Nat.div_add_mod' _ _
  have hmlt : (N + s - 1) % s < s := Nat.mod_lt _ (by omega)
  refine ⟨?_, ?_, ?_, ?_, rfl, rfl⟩
  · show N ≤ (N + s - 1) / s * s
    omega
  · show (N + s - 1) / s * s < N + s
    omega
  · show (decide (p < (N + s - 1) / s) = true) ↔ p < (N + s - 1) / s
    exact decide_eq_true_iff
  · show (decide (1 < p) = true) ↔ 1 < p
    exact decide_eq_true_iff

/-- Witness for C2 at the spec scenario: 23 records, page 3, page size 10. -/
theorem C2_pagination_envelope_witness :
    (1 : Nat) ≤ 10 ∧
    (23 ≤ (mkPagination 3 10 23).totalPages * 10 ∧
     (mkPagination 3 10 23).totalPages * 10 < 23 + 10 ∧
     ((mkPagination 3 10 23).hasNext = true ↔ 3 < (mkPagination 3 10 23).totalPages) ∧
     ((mkPagination 3 10 23).hasPrev = true ↔ 1 < 3) ∧
     (mkPagination 3 10 23).currentPage = 3 ∧
     (mkPagination 3 10 23).totalCount = 23) :=
  ⟨by decide, C2_pagination_envelope 23 3 10 (by decide)⟩

/-- C3.  The listing route and the export route build equal filter
predicates from every filter input, so over any fixed store the total count
reported by the listing equals the number of rows in the unwindowed export
result. -/
theorem C3_list_export_same_predicate (q : QueryParams) :
    listBuildFilter q = exportBuildFilter q ∧
    ∀ store : List BugRec,
      countDocuments (listBuildFilter q) store = (exportFind q store).length := by
  refine ⟨(exportBuildFilter_eq_listBuildFilter q).symm, ?_⟩
  intro store
  unfold exportFind findSorted countDocuments
  rw [exportBuildFilter_eq_listBuildFilter, List.length_insertionSort]

/-- Sum of the per-group counts of a group-by-value aggregation over any
store equals the store size: each record lands in exactly one group. -/
theorem groupCounts_sum (f : BugRec → String) (store : List BugRec) :
    ((groupCounts f store).map Prod.snd).sum = store.length := by
  unfold groupCounts
  rw [List.map_map]
  have h1 : (Prod.snd ∘ fun v => (v, (store.filter (fun b => f b == v)).length)) =
      fun v => (store.map f).count v := by
    funext v
    simp only [Function.comp]
    rw [← List.countP_eq_length_filter, List.count_eq_countP, List.countP_map]
    rfl
  rw [h1, List.sum_map_count_dedup_eq_length, List.length_map]

/-- The empty filter object matches every record. -/
theorem totalBugs_eq_length (store : List BugRec) : totalBugs store = store.length := by
  unfold totalBugs countDocuments
  have h : ∀ b ∈ store, matchesFilter {} b = true := fun b _ => rfl
  rw [List.filter_eq_self.mpr h]

/-- C7.  Over every store, the counts of the status distribution sum to the
total record count, and so do the counts of the priority distribution. -/
theorem C7_distribution_sums (store : List BugRec) :
    ((statusStats store).map Prod.snd).sum = totalBugs store ∧
    ((priorityStats store).map Prod.snd).sum = totalBugs store := by
  rw [totalBugs_eq_length]
  exact ⟨groupCounts_sum _ store, groupCounts_sum _ store⟩

/-- The double-quote doubling of escapeCSV, characterized as a per-character
expansion: each double quote becomes two, every other character is kept. -/
theorem dupQuotes_eq_flatMap (cs : List Char) :
    dupQuotes cs = cs.flatMap (fun c => if c == '\x22' then ['\x22', '\x22'] else [c]) := by
  induction cs with
  | nil => rfl
  | cons c rest ih =>
    simp only [dupQuotes, List.flatMap_cons]
    by_cases h : c == '\x22'
    · simp [h, ih]
    · simp [h, ih]

/-- C8.  Every field value containing a comma, double quote or newline is
serialized wrapped in double quotes with each internal double quote doubled,
every other field value is serialized unchanged, and the description
He said, "fix it" serializes as "He said, ""fix it""". -/
theorem C8_export_escaping :
    (∀ field : String,
      (hasCSVSpecial field = false → escapeCSV field = field) ∧
      (hasCSVSpecial field = true →
        (escapeCSV field).toList =
          '\x22' ::
            field.toList.flatMap (fun c => if c == '\x22' then ['\x22', '\x22'] else [c])
            ++ ['\x22'])) ∧
    escapeCSV "He said, \x22fix it\x22" = "\x22He said, \x22\x22fix it\x22\x22\x22" := by
  refine ⟨fun field => ⟨?_, ?_⟩, by decide⟩
  · intro h
    unfold escapeCSV
    rw [h]
    rfl
  · intro h
    unfold escapeCSV
    rw [h]
    simp only [if_pos]
    show ("\x22" ++ String.mk (dupQuotes field.toList) ++ "\x22").data = _
    rw [String.data_append, String.data_append, dupQuotes_eq_flatMap]
    rfl

/-- Witness for C8 at a field containing a comma. -/
theorem C8_export_escaping_witness :
    (escapeCSV "a,b").toList =
      '\x22' :: ("a,b".toList.flatMap (fun c => if c == '\x22' then ['\x22', '\x22'] else [c]))
        ++ ['\x22'] :=
  (C8_export_escaping.1 "a,b").2 (by decide)

/-- On patterns without the dot metacharacter, one anchored regex step is
exactly case-insensitive prefix comparison. -/
theorem regexAccepts_no_dot (p : List Char) :
    (∀ c ∈ p, c ≠ '.') → ∀ s : List Char,
      (regexAccepts p s = true ↔ p.map Char.toLower <+: s.map Char.toLower) := by
  induction p with
  | nil => intro _ s; simp [regexAccepts]
  | cons c cs ih =>
    intro hp s
    cases s with
    | nil => simp [regexAccepts]
    | cons d ds =>
      have hc : (c == '.') = false :=
        beq_eq_false_iff_ne.mpr (hp c (List.mem_cons_self c cs))
      have ihds := ih (fun x hx => hp x (List.mem_cons_of_mem c hx)) ds
      simp only [regexAccepts, hc, Bool.false_or, Bool.and_eq_true, beq_iff_eq,
        List.map_cons, List.cons_prefix_cons]
      exact and_congr Iff.rfl ihds

/-- On patterns without the dot metacharacter, the unanchored regex search is
exactly case-insensitive substring containment. -/
theorem regexFound_no_dot (p : List Char) (hp : ∀ c ∈ p, c ≠ '.') :
    ∀ s : List Char,
      (regexFound p s = true ↔ p.map Char.toLower <:+: s.map Char.toLower) := by
  intro s
  induction s with
  | nil =>
    show regexAccepts p [] = true ↔ _
    rw [regexAccepts_no_dot p hp []]
    simp
  | cons d ds ih =>
    show (regexAccepts p (d :: ds) || regexFound p ds) = true ↔ _
    simp only [Bool.or_eq_true]
    rw [regexAccepts_no_dot p hp (d :: ds), ih, List.map_cons, List.infix_cons_iff]

/-- Sample record with a one-character title, used to separate regex matching
from substring matching. -/
def bugDot : BugRec :=
  { id := "3"
    title := "x"
    description := ""
    status := "open"
    priority := "low"
    type := "bug"
    assignedTo := none
    reporter := "64b0c0ffee0ddf00d5ec1a2c"
    resolvedAt := none
    createdAt := 0
    updatedAt := 0 }

/-- C4 counterexample.  The search string consisting of a single dot matches
a record whose title is the single letter x, although a dot is not a
substring of that title or of the empty description under any case folding:
the search constraint interprets regex metacharacters, so substring semantics
is not preserved for every search string. -/
theorem C4_counterexample_regex_metachar :
    matchesSearch "." bugDot = true ∧
    ¬ (".".toList.map Char.toLower <:+: bugDot.title.toList.map Char.toLower ∨
       ".".toList.map Char.toLower <:+: bugDot.description.toList.map Char.toLower) := by
  constructor
  · decide
  · decide

/-- C4 amended.  A record matches the search constraint exactly when the
search string, interpreted as a case-insensitive regular expression, is found
in the title or the description; for search strings free of regex
metacharacters (in the modelled fragment, containing no dot) this coincides
with case-insensitive substring containment in title or description. -/
theorem C4_search_substring_for_literal_terms (term : String) (b : BugRec)
    (h : ∀ c ∈ term.toList, c ≠ '.') :
    (matchesSearch term b = true ↔
      (term.toList.map Char.toLower <:+: b.title.toList.map Char.toLower ∨
       term.toList.map Char.toLower <:+: b.description.toList.map Char.toLower)) := by
  unfold matchesSearch
  simp only [Bool.or_eq_true]
  rw [regexFound_no_dot term.toList h b.title.toList,
    regexFound_no_dot term.toList h b.description.toList]

/-- Witness for C4 at the spec scenario term login against the record titled
LOGIN page broken. -/
theorem C4_search_substring_witness :
    (∀ c ∈ "login".toList, c ≠ '.') ∧
    (matchesSearch "login" bugB = true ↔
      ("login".toList.map Char.toLower <:+: bugB.title.toList.map Char.toLower ∨
       "login".toList.map Char.toLower <:+: bugB.description.toList.map Char.toLower)) :=
  ⟨by decide, C4_search_substring_for_literal_terms "login" bugB (by decide)⟩

/-- Query whose search value is a single space. -/
def qSpace : QueryParams := { search := some " " }

/-- Query whose search value is the empty string. -/
def qEmptySearch : QueryParams := { search := some "" }

/-- C5 counterexample.  A whitespace-only search value is truthy, so the
listing adds a search constraint and the result set changes: a record whose
title and description contain no space is returned without the search value
but filtered out with it. -/
theorem C5_counterexample_whitespace_search :
    (listBuildFilter qSpace).search = some " " ∧
    [bugDot].filter (matchesFilter (listBuildFilter qSpace)) = [] ∧
    [bugDot].filter (matchesFilter (listBuildFilter { qSpace with search := none })) =
      [bugDot] := by
  refine ⟨by decide, by decide, by decide⟩

/-- C5 amended.  Only an empty search value is treated as absent: with an
empty search the built filter and the result set are exactly those of the
query with no search value; a whitespace-only search instead adds a search
constraint. -/
theorem C5_empty_search_absent (q : QueryParams) (h : q.search = some "") :
    listBuildFilter q = listBuildFilter { q with search := none } ∧
    ∀ store : List BugRec,
      store.filter (matchesFilter (listBuildFilter q)) =
        store.filter (matchesFilter (listBuildFilter { q with search := none })) := by
  have he : listBuildFilter q = listBuildFilter { q with search := none } := by
    ext
    · rw [listBuildFilter_status, listBuildFilter_status]
    · rw [listBuildFilter_priority, listBuildFilter_priority]
    · rw [listBuildFilter_type, listBuildFilter_type]
    · rw [listBuildFilter_assignedTo, listBuildFilter_assignedTo]
    · rw [listBuildFilter_reporter, listBuildFilter_reporter]
    · rw [listBuildFilter_search, listBuildFilter_search]
      simp [h, qTruthy]
  exact ⟨he, fun store => by rw [he]⟩

/-- Witness for C5 at the query whose search value is the empty string. -/
theorem C5_empty_search_absent_witness :
    qEmptySearch.search = some "" ∧
    (listBuildFilter qEmptySearch = listBuildFilter { qEmptySearch with search := none } ∧
     ∀ store : List BugRec,
       store.filter (matchesFilter (listBuildFilter qEmptySearch)) =
         store.filter (matchesFilter (listBuildFilter { qEmptySearch with search := none }))) :=
  ⟨rfl, C5_empty_search_absent qEmptySearch rfl⟩

/-- Clock that always reads the same instant. -/
def clockA : Nat → Int := fun _ => 0

/-- Clock that advances by one day between its first and second read. -/
def clockB : Nat → Int := fun n => if n == 0 then 0 else msPerDay

/-- Record created exactly at the six-month cutoff of an instant-zero clock. -/
def bugOld : BugRec :=
  { id := "4"
    title := "Old record"
    description := "Created at the window edge"
    status := "open"
    priority := "low"
    type := "bug"
    assignedTo := none
    reporter := "64b0c0ffee0ddf00d5ec1a2c"
    resolvedAt := none
    createdAt := -15552000000
    updatedAt := -15552000000 }

/-- C6 counterexample.  Two clocks that agree on the first read but differ on
the second produce different analytics windows and a different monthly-trend
source set: the monthly-trend window is derived from a second clock read, not
from one value captured once per invocation. -/
theorem C6_counterexample_two_clock_reads :
    clockA 0 = clockB 0 ∧
    analyticsWindows clockA ≠ analyticsWindows clockB ∧
    recentBugsCount clockA [bugOld] = recentBugsCount clockB [bugOld] ∧
    monthlyTrendSource clockA [bugOld] ≠ monthlyTrendSource clockB [bugOld] := by
  refine ⟨rfl, by decide, rfl, by decide⟩

/-- C6 amended.  The recent window is derived from the invocation's first
clock read and the monthly trend from a second, separate read; the two
computations are mutually consistent whenever the two reads return the same
values, but the code does not capture one now and reuse it. -/
theorem C6_windows_from_two_reads (c₁ c₂ : Nat → Int)
    (h0 : c₁ 0 = c₂ 0) (h1 : c₁ 1 = c₂ 1) :
    analyticsWindows c₁ = analyticsWindows c₂ ∧
    ∀ store : List BugRec,
      recentBugsCount c₁ store = recentBugsCount c₂ store ∧
      monthlyTrendSource c₁ store = monthlyTrendSource c₂ store := by
  have hw : analyticsWindows c₁ = analyticsWindows c₂ := by
    unfold analyticsWindows
    rw [h0, h1]
  refine ⟨hw, fun store => ⟨?_, ?_⟩⟩
  · unfold recentBugsCount
    rw [hw]
  · unfold monthlyTrendSource
    rw [hw]

/-- Witness for C6 with two equal clocks. -/
theorem C6_windows_from_two_reads_witness :
    clockA 0 = clockA 0 ∧ clockA 1 = clockA 1 ∧
    (analyticsWindows clockA = analyticsWindows clockA ∧
     ∀ store : List BugRec,
       recentBugsCount clockA store = recentBugsCount clockA store ∧
       monthlyTrendSource clockA store = monthlyTrendSource clockA store) :=
  ⟨rfl, rfl, C6_windows_from_two_reads clockA clockA rfl rfl⟩

/-- Stored record that is closed with a resolved timestamp. -/
def bugClosed : BugRec :=
  { id := "5"
    title := "Fixed crash"
    description := "Was fixed and closed"
    status := "closed"
    priority := "high"
    type := "bug"
    assignedTo := some "64b0c0ffee0ddf00d5ec1a2b"
    reporter := "64b0c0ffee0ddf00d5ec1a2c"
    resolvedAt := some 5
    createdAt := 100
    updatedAt := 100 }

/-- C9 at its failing input.  Reopening a closed record through the update
endpoint leaves the resolved timestamp in place, because findByIdAndUpdate
does not run the pre-save hook: the updated record carries status reopened
together with a resolved timestamp, violating the invariant that a resolved
timestamp is present only on a closed record — while the same transition
through the save path does clear the timestamp.  Symmetrically, closing a
record through the update endpoint leaves the timestamp unset. -/
theorem C9_update_endpoint_bypasses_resolvedAt_hook :
    (updateBugEndpoint { status := some "reopened" } bugClosed).status = "reopened" ∧
    (updateBugEndpoint { status := some "reopened" } bugClosed).resolvedAt = some 5 ∧
    ¬ resolvedAtInvariant (updateBugEndpoint { status := some "reopened" } bugClosed) ∧
    (saveBug true 99 { bugClosed with status := "reopened" }).resolvedAt = none ∧
    (updateBugEndpoint { status := some "closed" }
        { bugClosed with status := "open", resolvedAt := none }).resolvedAt = none ∧
    (saveBug true 99
        { bugClosed with status := "closed", resolvedAt := none }).resolvedAt = some 99 := by
  refine ⟨rfl, rfl, ?_, by decide, rfl, by decide⟩
  intro hinv
  exact absurd (hinv (by decide)) (by decide)

/-- C10.  The export operation applies no validation: for every query the
listing route rejects with a client-input error, the export route still
returns a CSV body built from the raw values; and when the invalid value is
an unrecognized nonempty status over a store of validly-stored records, the
body is the empty CSV (no row matches). -/
theorem C10_export_skips_validation (q : QueryParams) (store : List BugRec)
    (users : List (String × String)) (h : validateListQuery q = false) :
    listBugsHandler q store = .error .invalidQuery ∧
    exportHandler q store users = .ok (exportCSV q store users) ∧
    (∀ s, q.status = some s → s ≠ "" → statusValues.contains s = false →
      (∀ b ∈ store, statusValues.contains b.status = true) →
      store.filter (matchesFilter (exportBuildFilter q)) = []) := by
  refine ⟨?_, rfl, ?_⟩
  · unfold listBugsHandler
    rw [h]
    rfl
  · intro s hs hne hinvalid hstore
    rw [List.filter_eq_nil_iff]
    intro b hb
    have hst : (exportBuildFilter q).status = some s := by
      rw [exportBuildFilter_eq_listBuildFilter, listBuildFilter_status, hs]
      simp [qTruthy, hne]
    have hbs : (b.status == s) = false := by
      apply beq_eq_false_iff_ne.mpr
      intro heq
      have h1 := hstore b hb
      rw [heq, hinvalid] at h1
      exact Bool.noConfusion h1
    unfold matchesFilter
    rw [hst]
    simp [hbs]

/-- Query carrying an unrecognized status value. -/
def qBogus : QueryParams := { status := some "bogus" }

/-- Witness for C10 at the unrecognized status value bogus over a one-record
store. -/
theorem C10_export_skips_validation_witness :
    validateListQuery qBogus = false ∧
    (listBugsHandler qBogus [bugA] = .error .invalidQuery ∧
     exportHandler qBogus [bugA] [] = .ok (exportCSV qBogus [bugA] []) ∧
     (∀ s, qBogus.status = some s → s ≠ "" → statusValues.contains s = false →
       (∀ b ∈ [bugA], statusValues.contains b.status = true) →
       [bugA].filter (matchesFilter (exportBuildFilter qBogus)) = [])) :=
  ⟨by decide, C10_export_skips_validation qBogus [bugA] [] (by decide)⟩
